import Mathlib

/-!
Shallow embedding of the weekly-lotto core (src/internal/lottery/client.go and
src/cmd/check/main.go).  HTTP effects are modelled by an explicit environment
of decoded responses and a trace of issued requests; the pure encoding and
decoding functions are translated directly from the Go source.
-/

namespace WeeklyLotto

/-- Modelled from the spec: the `domain` package (ticket modes of
`domain.Lotto645Ticket`) is not under src/.  Mode ∈ {Auto, Manual, SemiAuto}. -/
inductive Mode
  | auto
  | manual
  | semiAuto
deriving DecidableEq, Repr

/-- Modelled from the spec: `domain.Lotto645Ticket` (the TicketRequest value:
mode plus an ordered sequence of numbers) is not under src/. -/
structure Lotto645Ticket where
  mode : Mode
  numbers : List Int
deriving DecidableEq, Repr

/-- Embedding of `PurchasedTicket` from client.go: round, slot (A–E), numbers, mode string. -/
structure PurchasedTicket where
  round : Int
  slot : String
  numbers : List Int
  mode : String
deriving DecidableEq, Repr

/-- Embedding of `PurchaseHistory` from client.go: tickets of a single purchase order. -/
structure PurchaseHistory where
  round : Int
  orderNo : String
  tickets : List PurchasedTicket
deriving DecidableEq, Repr

/-- One element of the JSON array built by `makeBuyParam`: the fields of the
`slots[i]` map in client.go.  JSON object key order is immaterial. -/
structure BuySlot where
  genType : String
  arrGameChoiceNum : Option String
  alpabet : String
deriving DecidableEq, Repr

/-- Error kinds, one per distinct `fmt.Errorf` site of the embedded code,
mapped onto the spec taxonomy:
`invalidInput` ↦ InvalidInput ("최대 5장까지만 구매 가능합니다"),
`purchaseRejected` ↦ PurchaseRejected ("구매 실패: %s", message verbatim),
`roundZeroParse` ↦ ParseError ("구매 상세 조회 - 회차 조회 실패"),
`noDataFound` ↦ NoDataFound ("구매 내역을 찾을 수 없습니다"),
the rest are transport/decode failures surfaced by the environment. -/
inductive LottoError
  | readySocketParse
  | roundParse
  | invalidInput
  | responseParse
  | purchaseRejected (msg : String)
  | summariesFetch
  | detailFetch (orderNo : String)
  | roundZeroParse (orderNo : String)
  | noDataFound
deriving DecidableEq, Repr

/-- Decoded JSON body of the purchase endpoint (`result` object in client.go). -/
structure BuyResult where
  resultCode : String
  resultMsg : String
  arrGameChoiceNum : List String
deriving DecidableEq, Repr

/-- Environment for `buyLotto645`: the decoded outcome of each HTTP exchange
the transaction performs, in the order the code performs them. -/
structure BuyEnv where
  readySocket : Except LottoError String
  currentRound : Except LottoError Int
  buyResponse : Except LottoError BuyResult
deriving Repr

/-- An HTTP request issued by `buyLotto645`, for the request trace. -/
inductive Request
  | readySocketReq
  | currentRoundReq
  | buyReq (round : Int) (direct : String) (nBuyAmount : Int)
      (param : List BuySlot) (gameCnt : Nat)
deriving DecidableEq, Repr

/-- Embedding of `parser.PurchaseSummary`: one order summary from the purchase-list page. -/
structure PurchaseSummary where
  orderNo : String
  barcode : String
  issueNo : String
deriving DecidableEq, Repr

/-- One ticket row decoded from a purchase-detail page
(`parser.ParsePurchaseDetail` output element). -/
structure TicketDetail where
  slot : String
  numbers : List Int
  mode : String
deriving DecidableEq, Repr

/-- Environment for `getRecentPurchases`: the decoded purchase-list response
and, per summary, the decoded detail page (round plus ticket rows). -/
structure HistEnv where
  summaries : Except LottoError (List PurchaseSummary)
  detail : PurchaseSummary → Except LottoError (Int × List TicketDetail)

/-- Embedding of `domain.Rank`: Rank1 strongest, RankNone = no prize. -/
inductive Rank
  | rank1
  | rank2
  | rank3
  | rank4
  | rank5
  | rankNone
deriving DecidableEq, Repr

/-- Modelled from the spec: `domain.PrizeInfo` (the `domain` package is not
under src/): winner count, amount per winner, total amount. -/
structure PrizeInfo where
  winnerCount : Int
  amountPerWinner : Int
  totalAmount : Int
deriving DecidableEq, Repr

/-- Modelled from the spec: `domain.WinningNumbers` (the `domain` package is
not under src/): round, 6 numbers, bonus, and the rank → prize mapping
(`none` for an absent prize row; draw date omitted, unused by the claims). -/
structure WinningNumbers where
  round : Int
  numbers : List Int
  bonusNumber : Int
  prizes : Rank → Option PrizeInfo

/-- Embedding of `domain.TicketResult`: a purchased ticket annotated with rank and prize. -/
structure TicketResult where
  slot : String
  mode : String
  numbers : List Int
  rank : Rank
  prize : Int
deriving Repr

/-- Digit-run value: `none` unless every character is a decimal digit. -/
def digitsVal : List Char → Nat → Option Nat
  | [], acc => some acc
  | c :: cs, acc =>
    if c.isDigit then digitsVal cs (10 * acc + (c.toNat - '0'.toNat)) else none

/-- Embedding of `strconv.Atoi`: optional sign followed by one or more digits, else failure. -/
def atoi : List Char → Option Int
  | [] => none
  | '+' :: rest =>
    if rest.isEmpty then none else (digitsVal rest 0).map Int.ofNat
  | '-' :: rest =>
    if rest.isEmpty then none
    else (digitsVal rest 0).map (fun n => -(n : Int))
  | cs => (digitsVal cs 0).map Int.ofNat

/-- Embedding of `strings.Split` with the one-character separator `"|"`, over the character
list, with the split-so-far token accumulated in reverse. -/
def splitPipe : List Char → List Char → List (List Char)
  | [], acc => [acc.reverse]
  | c :: cs, acc =>
    if c = '|' then acc.reverse :: splitPipe cs []
    else splitPipe cs (c :: acc)

/-- The `modeMap` lookup of `parsePurchasedNumbers`; Go map lookup yields the
zero value `""` for a missing key. -/
def modeMap (s : String) : String :=
  if s = "1" then "수동"
  else if s = "2" then "반자동"
  else if s = "3" then "자동"
  else ""

/-- The per-line body of the `parsePurchasedNumbers` loop in client.go:
`slot := line[:1]`, `modeCode := line[len(line)-1:]`,
`numbersSection := line[2 : len(line)-1]`, split on `"|"`, keep the tokens
`strconv.Atoi` accepts, default an unknown mode code to `"알 수 없음"`. -/
def parsePurchasedLine (round : Int) (line : String) : PurchasedTicket :=
  let cs := line.data
  let slot := String.mk (cs.take 1)
  let modeCode := String.mk (cs.drop (cs.length - 1))
  let numbersSection := (cs.take (cs.length - 1)).drop 2
  let numberParts := splitPipe numbersSection []
  let numbers := numberParts.filterMap atoi
  let mode := modeMap modeCode
  let mode := if mode = "" then "알 수 없음" else mode
  { round := round, slot := slot, numbers := numbers, mode := mode }

/-- Embedding of `parsePurchasedNumbers` from client.go: decode every response line,
silently skipping lines shorter than 3 characters. -/
def parsePurchasedNumbers (round : Int) : List String → List PurchasedTicket
  | [] => []
  | line :: rest =>
    if line.length < 3 then parsePurchasedNumbers round rest
    else parsePurchasedLine round line :: parsePurchasedNumbers round rest

/-- Embedding of `numbersToString` from client.go: `strconv.Itoa` each number and join
with commas. -/
def numbersToString (numbers : List Int) : String :=
  String.intercalate "," (numbers.map toString)

/-- The `slotNames` list from `makeBuyParam`. -/
def slotNames : List String := ["A", "B", "C", "D", "E"]

/-- One iteration body of the `makeBuyParam` loop: the slot object built for
ticket `i` (the `i >= len(slotNames)` guard lives in `makeBuyParamAux`). -/
def makeSlot (ticket : Lotto645Ticket) (i : Nat) : BuySlot :=
  match ticket.mode with
  | .auto => { genType := "0", arrGameChoiceNum := none,
               alpabet := slotNames.getD i "" }
  | .manual => { genType := "1",
                 arrGameChoiceNum := some (numbersToString ticket.numbers),
                 alpabet := slotNames.getD i "" }
  | .semiAuto => { genType := "2",
                   arrGameChoiceNum := some (numbersToString ticket.numbers),
                   alpabet := slotNames.getD i "" }

/-- The `makeBuyParam` loop over `(i, ticket)` pairs, failing with
InvalidInput ("최대 5장까지만 구매 가능합니다") once `i ≥ len(slotNames)`. -/
def makeBuyParamAux : List Lotto645Ticket → Nat → Except LottoError (List BuySlot)
  | [], _ => .ok []
  | t :: ts, i =>
    if slotNames.length ≤ i then .error .invalidInput
    else
      match makeBuyParamAux ts (i + 1) with
      | .error e => .error e
      | .ok rest => .ok (makeSlot t i :: rest)

/-- Embedding of `makeBuyParam` from client.go, as the JSON array value it serializes. -/
def makeBuyParam (tickets : List Lotto645Ticket) : Except LottoError (List BuySlot) :=
  makeBuyParamAux tickets 0

/-- Embedding of `BuyLotto645` from client.go: ready-socket call, round lookup, parameter
encoding, purchase POST (with `nBuyAmount = 1000 * len(tickets)` and
`gameCnt = len(tickets)`), then resultCode check and response decoding.
Returns the operation outcome paired with the trace of HTTP requests issued. -/
def buyLotto645 (env : BuyEnv) (tickets : List Lotto645Ticket) :
    Except LottoError (List PurchasedTicket) × List Request :=
  match env.readySocket with
  | .error e => (.error e, [.readySocketReq])
  | .ok readyIP =>
    match env.currentRound with
    | .error e => (.error e, [.readySocketReq, .currentRoundReq])
    | .ok round =>
      match makeBuyParam tickets with
      | .error e => (.error e, [.readySocketReq, .currentRoundReq])
      | .ok param =>
        let trace := [Request.readySocketReq, Request.currentRoundReq,
          Request.buyReq round readyIP (1000 * tickets.length) param tickets.length]
        match env.buyResponse with
        | .error e => (.error e, trace)
        | .ok result =>
          if result.resultCode ≠ "100" then
            (.error (.purchaseRejected result.resultMsg), trace)
          else
            (.ok (parsePurchasedNumbers round result.arrGameChoiceNum), trace)

/-- Embedding of `fetchPurchaseTickets` from client.go: decode the detail page of one
summary and stamp every ticket row with the decoded round. -/
def fetchPurchaseTickets (env : HistEnv) (summary : PurchaseSummary) :
    Except LottoError (Int × List PurchasedTicket) :=
  match env.detail summary with
  | .error e => .error e
  | .ok (round, details) =>
    .ok (round, details.map (fun d =>
      { round := round, slot := d.slot, numbers := d.numbers, mode := d.mode }))

/-- The summary loop of `GetRecentPurchases`: per summary, fetch the detail,
fail on a fetch error ("구매 상세 조회 실패") or on round 0
("구매 상세 조회 - 회차 조회 실패"), else append a PurchaseHistory. -/
def processSummaries (env : HistEnv) :
    List PurchaseSummary → Except LottoError (List PurchaseHistory)
  | [] => .ok []
  | s :: rest =>
    match fetchPurchaseTickets env s with
    | .error _ => .error (.detailFetch s.orderNo)
    | .ok (round, tickets) =>
      if round = 0 then .error (.roundZeroParse s.orderNo)
      else
        match processSummaries env rest with
        | .error e => .error e
        | .ok hs => .ok ({ round := round, orderNo := s.orderNo,
                           tickets := tickets } :: hs)

/-- Embedding of `GetRecentPurchases` from client.go: list the order summaries for the
window, resolve each, and fail with NoDataFound
("구매 내역을 찾을 수 없습니다") when no history was collected. -/
def getRecentPurchases (env : HistEnv) : Except LottoError (List PurchaseHistory) :=
  match env.summaries with
  | .error _ => .error .summariesFetch
  | .ok summaries =>
    match processSummaries env summaries with
    | .error e => .error e
    | .ok histories =>
      if histories.length = 0 then .error .noDataFound else .ok histories

/-- Modelled from the spec: `domain.CheckWinning` (the `domain` package is not
under src/), the §4.2 grading rule: m = intersection size with the winning
numbers; 6 → Rank1, 5 with bonus → Rank2, 5 → Rank3, 4 → Rank4, 3 → Rank5,
otherwise RankNone. -/
def checkWinning (numbers : List Int) (winning : WinningNumbers) : Rank :=
  let m := (numbers.filter (fun n => winning.numbers.contains n)).length
  if m = 6 then .rank1
  else if m = 5 then
    if numbers.contains winning.bonusNumber then .rank2 else .rank3
  else if m = 4 then .rank4
  else if m = 3 then .rank5
  else .rankNone

/-- The prize computation of the check loop in src/cmd/check/main.go:
`prize` stays 0 unless the rank is not RankNone and the prize table has an
entry for it, in which case it is that entry's AmountPerWinner. -/
def ticketPrize (winning : WinningNumbers) (rank : Rank) : Int :=
  if rank ≠ Rank.rankNone then
    match winning.prizes rank with
    | some info => info.amountPerWinner
    | none => 0
  else 0

/-- The summary-building loop of src/cmd/check/main.go (lines 50–62): one
TicketResult per purchased ticket, in input order. -/
def buildSummaryTickets (winning : WinningNumbers)
    (tickets : List PurchasedTicket) : List TicketResult :=
  tickets.map (fun t =>
    let rank := checkWinning t.numbers winning
    { slot := t.slot, mode := t.mode, numbers := t.numbers, rank := rank,
      prize := ticketPrize winning rank })

deriving instance DecidableEq for Except

/-- The slot objects the `makeBuyParam` loop emits when no index overflows. -/
def buildSlots : List Lotto645Ticket → Nat → List BuySlot
  | [], _ => []
  | t :: ts, i => makeSlot t i :: buildSlots ts (i + 1)

/-- A concrete environment in which every HTTP exchange of the purchase
transaction decodes successfully. -/
def envAllOk : BuyEnv :=
  { readySocket := .ok "1.2.3.4",
    currentRound := .ok 42,
    buyResponse := .ok
      { resultCode := "100", resultMsg := "",
        arrGameChoiceNum := ["A|01|02|04|27|39|443"] } }

/-- A concrete environment in which the purchase endpoint rejects the order. -/
def envRejected : BuyEnv :=
  { readySocket := .ok "1.2.3.4",
    currentRound := .ok 42,
    buyResponse := .ok
      { resultCode := "999", resultMsg := "예치금이 부족합니다",
        arrGameChoiceNum := [] } }

/-- Six Auto ticket requests: one more than the five slots A–E allow. -/
def sixAutoTickets : List Lotto645Ticket :=
  [⟨Mode.auto, []⟩, ⟨Mode.auto, []⟩, ⟨Mode.auto, []⟩,
   ⟨Mode.auto, []⟩, ⟨Mode.auto, []⟩, ⟨Mode.auto, []⟩]

theorem makeBuyParamAux_overflow (ts : List Lotto645Ticket) (i : Nat)
    (hne : ts ≠ []) (h : 5 < ts.length + i) :
    makeBuyParamAux ts i = .error .invalidInput := by
  induction ts generalizing i with
  | nil => exact absurd rfl hne
  | cons t rest ih =>
    by_cases hi : slotNames.length ≤ i
    · simp [makeBuyParamAux, hi]
    · have hlen : ¬ (5 : Nat) ≤ i := by
        simpa [slotNames] using hi
      have hrest : rest ≠ [] := by
        intro hr
        subst hr
        simp at h
        omega
      have h5 : 5 < rest.length + (i + 1) := by
        simp at h
        omega
      simp [makeBuyParamAux, hi, ih (i + 1) hrest h5]

theorem makeBuyParamAux_fits (ts : List Lotto645Ticket) (i : Nat)
    (h : ts.length + i ≤ 5) :
    makeBuyParamAux ts i = .ok (buildSlots ts i) := by
  induction ts generalizing i with
  | nil => simp [makeBuyParamAux, buildSlots]
  | cons t rest ih =>
    have hi : ¬ slotNames.length ≤ i := by
      simp only [List.length_cons] at h
      simp [slotNames]
      omega
    have hrest : rest.length + (i + 1) ≤ 5 := by
      simp only [List.length_cons] at h
      omega
    simp [makeBuyParamAux, hi, ih (i + 1) hrest, buildSlots]

theorem buildSlots_length (ts : List Lotto645Ticket) (i : Nat) :
    (buildSlots ts i).length = ts.length := by
  induction ts generalizing i with
  | nil => simp [buildSlots]
  | cons t rest ih => simp [buildSlots, ih]

theorem buildSlots_getD (ts : List Lotto645Ticket) (i j : Nat)
    (h : j < ts.length) (d : BuySlot) (dT : Lotto645Ticket) :
    (buildSlots ts i).getD j d = makeSlot (ts.getD j dT) (i + j) := by
  induction ts generalizing i j with
  | nil => simp at h
  | cons t rest ih =>
    cases j with
    | zero => simp [buildSlots]
    | succ j =>
      have hj : j < rest.length := by simpa using h
      have := ih (i + 1) j hj
      simpa [buildSlots, Nat.add_assoc, Nat.add_comm 1 j] using this

theorem getD_map {α β : Type} (f : α → β) (l : List α) (dA : α) (j : Nat)
    (h : j < l.length) : (l.map f).getD j (f dA) = f (l.getD j dA) := by
  induction l generalizing j with
  | nil => simp at h
  | cons a rest ih =>
    cases j with
    | zero => simp
    | succ j =>
      have hj : j < rest.length := by simpa using h
      simp

theorem parsePurchasedNumbers_round (r : Int) (lines : List String)
    (t : PurchasedTicket) (h : t ∈ parsePurchasedNumbers r lines) :
    t.round = r := by
  induction lines with
  | nil => simp [parsePurchasedNumbers] at h
  | cons line rest ih =>
    by_cases hl : line.length < 3
    · rw [parsePurchasedNumbers, if_pos hl] at h
      exact ih h
    · rw [parsePurchasedNumbers, if_neg hl] at h
      rcases List.mem_cons.mp h with h1 | h2
      · subst h1; rfl
      · exact ih h2

/-- C2: decoding a purchase-response line of length ≥ 3 takes the first
character as slot, strips the 2-character prefix and the 1-character mode
suffix, splits the remainder on the pipe and keeps exactly the tokens that
parse as integers; the example line "A|01|02|04|27|39|443" decodes to slot A,
numbers [1,2,4,27,39,44] and mode digit 3 mapped to Auto ("자동"). -/
theorem c2_purchased_line_decode :
    (∀ (r : Int) (line : String), 3 ≤ line.length →
      parsePurchasedNumbers r [line] =
        [{ round := r,
           slot := String.mk (line.data.take 1),
           numbers := (splitPipe
             ((line.data.take (line.data.length - 1)).drop 2) []).filterMap atoi,
           mode := (parsePurchasedLine r line).mode }]) ∧
    parsePurchasedNumbers 42 ["A|01|02|04|27|39|443"] =
      [{ round := 42, slot := "A", numbers := [1, 2, 4, 27, 39, 44],
         mode := "자동" }] := by
  constructor
  · intro r line h
    have h3 : ¬ line.length < 3 := by omega
    rw [parsePurchasedNumbers, if_neg h3, parsePurchasedNumbers]
    rfl
  · decide

/-- C2 witness: the general decode shape instantiated at the example line. -/
theorem c2_purchased_line_decode_witness :
    parsePurchasedNumbers 42 ["A|01|02|04|27|39|443"] =
      [{ round := 42,
         slot := String.mk ("A|01|02|04|27|39|443".data.take 1),
         numbers := (splitPipe
           (("A|01|02|04|27|39|443".data.take
             ("A|01|02|04|27|39|443".data.length - 1)).drop 2) []).filterMap atoi,
         mode := (parsePurchasedLine 42 "A|01|02|04|27|39|443").mode }] :=
  c2_purchased_line_decode.1 42 "A|01|02|04|27|39|443" (by decide)

/-- C8: a line of length ≥ 3 whose last character is not one of the mode
digits 1, 2, 3 still yields a ticket, with the explicit unknown-mode sentinel
"알 수 없음", instead of failing the batch. -/
theorem c8_unknown_mode_sentinel :
    ∀ (r : Int) (line : String), 3 ≤ line.length →
      String.mk (line.data.drop (line.data.length - 1)) ∉
        (["1", "2", "3"] : List String) →
      ∃ t, parsePurchasedNumbers r [line] = [t] ∧ t.mode = "알 수 없음" := by
  intro r line h hmode
  have h3 : ¬ line.length < 3 := by omega
  refine ⟨parsePurchasedLine r line, ?_, ?_⟩
  · rw [parsePurchasedNumbers, if_neg h3, parsePurchasedNumbers]
  · simp only [List.mem_cons, List.not_mem_nil, or_false, not_or] at hmode
    obtain ⟨h1, h2, h3'⟩ := hmode
    simp only [parsePurchasedLine, modeMap]
    rw [if_neg h1, if_neg h2, if_neg h3']
    simp

/-- C8 witness: a concrete line with an unrecognized trailing mode digit 9. -/
theorem c8_unknown_mode_sentinel_witness :
    ∃ t, parsePurchasedNumbers 0 ["A|01|02|04|27|39|449"] = [t] ∧
      t.mode = "알 수 없음" :=
  c8_unknown_mode_sentinel 0 "A|01|02|04|27|39|449" (by decide) (by decide)

/-- C10: `parsePurchasedNumbers` is total — for every round and every list of
lines it returns the per-line decode of exactly those lines of length ≥ 3, in
order, so the output never has more entries than the input and a run with a
short line has strictly fewer; the 2-character line "ab" is silently skipped. -/
theorem c10_parse_total_skips_short :
    (∀ (r : Int) (lines : List String),
      parsePurchasedNumbers r lines =
        (lines.filter (fun l => 3 ≤ l.length)).map (parsePurchasedLine r) ∧
      (parsePurchasedNumbers r lines).length ≤ lines.length) ∧
    parsePurchasedNumbers 1 ["ab"] = [] := by
  constructor
  · intro r lines
    induction lines with
    | nil => simp [parsePurchasedNumbers]
    | cons line rest ih =>
      by_cases hl : line.length < 3
      · have hf : ¬ (3 ≤ line.length) := by omega
        rw [parsePurchasedNumbers, if_pos hl]
        refine ⟨?_, ?_⟩
        · simpa [hf] using ih.1
        · calc (parsePurchasedNumbers r rest).length ≤ rest.length := ih.2
            _ ≤ (line :: rest).length := by simp
      · have ht : (3 ≤ line.length) := by omega
        rw [parsePurchasedNumbers, if_neg hl]
        refine ⟨?_, ?_⟩
        · simpa [ht] using ih.1
        · simpa using ih.2
  · decide

/-- C1 counterexample: with six Auto requests and a fully healthy site,
`BuyLotto645` does issue HTTP requests — the ready-socket call and the round
lookup — before failing with InvalidInput, refuting "fails before issuing any
HTTP request". -/
theorem c1_counterexample_http_requests_issued :
    buyLotto645 envAllOk sixAutoTickets =
      (.error .invalidInput, [.readySocketReq, .currentRoundReq]) ∧
    (buyLotto645 envAllOk sixAutoTickets).2 ≠ [] ∧
    Request.readySocketReq ∈ (buyLotto645 envAllOk sixAutoTickets).2 := by
  decide

/-- C1 (amended): with more than 5 TicketRequests, `BuyLotto645` never issues
the purchase POST; the ready-socket call and the round lookup are issued
first, and when both decode successfully the operation fails with
InvalidInput from parameter encoding. -/
theorem c1_invalid_input_before_purchase_post :
    ∀ (env : BuyEnv) (tickets : List Lotto645Ticket), 5 < tickets.length →
      (∀ r d n p g, Request.buyReq r d n p g ∉ (buyLotto645 env tickets).2) ∧
      (∀ ip rnd, env.readySocket = .ok ip → env.currentRound = .ok rnd →
        buyLotto645 env tickets =
          (.error .invalidInput, [.readySocketReq, .currentRoundReq])) := by
  intro env tickets h
  have hne : tickets ≠ [] := by
    intro he
    subst he
    simp at h
  have hmk : makeBuyParam tickets = .error .invalidInput := by
    rw [makeBuyParam]
    exact makeBuyParamAux_overflow tickets 0 hne (by omega)
  constructor
  · intro r d n p g
    cases hrs : env.readySocket with
    | error e => simp [buyLotto645, hrs]
    | ok ip =>
      cases hcr : env.currentRound with
      | error e => simp [buyLotto645, hrs, hcr]
      | ok rnd => simp [buyLotto645, hrs, hcr, hmk]
  · intro ip rnd hrs hcr
    simp [buyLotto645, hrs, hcr, hmk]

/-- C1 witness: the amended statement instantiated at six Auto tickets in the
healthy environment. -/
theorem c1_invalid_input_before_purchase_post_witness :
    Request.buyReq 42 "1.2.3.4" 6000 [] 6 ∉
      (buyLotto645 envAllOk sixAutoTickets).2 ∧
    buyLotto645 envAllOk sixAutoTickets =
      (.error .invalidInput, [.readySocketReq, .currentRoundReq]) :=
  ⟨(c1_invalid_input_before_purchase_post envAllOk sixAutoTickets
      (by decide)).1 42 "1.2.3.4" 6000 [] 6,
   (c1_invalid_input_before_purchase_post envAllOk sixAutoTickets
      (by decide)).2 "1.2.3.4" 42 rfl rfl⟩

/-- The spec's description of one encoded purchase slot array (§4.1 step 3):
one object per request in input order, genType "0"/"1"/"2" for
Auto/Manual/SemiAuto, arrGameChoiceNum null for Auto and the comma-joined
numbers otherwise, alpabet the slot letter assigned by position. -/
def buyParamSpec (tickets : List Lotto645Ticket) (slots : List BuySlot) : Prop :=
  slots.length = tickets.length ∧
  ∀ j, j < tickets.length →
    let t := tickets.getD j ⟨Mode.auto, []⟩
    let s := slots.getD j ⟨"", none, ""⟩
    s.alpabet = slotNames.getD j "" ∧
    (t.mode = Mode.auto → s.genType = "0" ∧ s.arrGameChoiceNum = none) ∧
    (t.mode = Mode.manual → s.genType = "1" ∧
      s.arrGameChoiceNum = some (numbersToString t.numbers)) ∧
    (t.mode = Mode.semiAuto → s.genType = "2" ∧
      s.arrGameChoiceNum = some (numbersToString t.numbers))

theorem makeSlot_spec (t : Lotto645Ticket) (i : Nat) :
    (makeSlot t i).alpabet = slotNames.getD i "" ∧
    (t.mode = Mode.auto → (makeSlot t i).genType = "0" ∧
      (makeSlot t i).arrGameChoiceNum = none) ∧
    (t.mode = Mode.manual → (makeSlot t i).genType = "1" ∧
      (makeSlot t i).arrGameChoiceNum = some (numbersToString t.numbers)) ∧
    (t.mode = Mode.semiAuto → (makeSlot t i).genType = "2" ∧
      (makeSlot t i).arrGameChoiceNum = some (numbersToString t.numbers)) := by
  obtain ⟨m, ns⟩ := t
  cases m with
  | auto => simp [makeSlot]
  | manual => simp [makeSlot]
  | semiAuto => simp [makeSlot]

/-- C3: for every request sequence of length ≤ 5, `makeBuyParam` succeeds and
its slot array satisfies the spec's encoding (genType by mode, null versus
comma-joined numbers, alpabet by position, input order); a SemiAuto ticket
with numbers [3,7,12,20,33,41] at index 1 encodes to genType "2",
arrGameChoiceNum "3,7,12,20,33,41" and alpabet "B". -/
theorem c3_buy_param_encoding :
    (∀ tickets : List Lotto645Ticket, tickets.length ≤ 5 →
      ∃ slots, makeBuyParam tickets = .ok slots ∧ buyParamSpec tickets slots) ∧
    makeBuyParam [⟨Mode.auto, []⟩, ⟨Mode.semiAuto, [3, 7, 12, 20, 33, 41]⟩] =
      .ok [{ genType := "0", arrGameChoiceNum := none, alpabet := "A" },
           { genType := "2", arrGameChoiceNum := some "3,7,12,20,33,41",
             alpabet := "B" }] := by
  constructor
  · intro tickets hlen
    refine ⟨buildSlots tickets 0, ?_, ?_, ?_⟩
    · rw [makeBuyParam]
      exact makeBuyParamAux_fits tickets 0 (by omega)
    · exact buildSlots_length tickets 0
    · intro j hj
      have hg := buildSlots_getD tickets 0 j hj ⟨"", none, ""⟩ ⟨Mode.auto, []⟩
      dsimp only
      rw [hg]
      simpa using makeSlot_spec (tickets.getD j ⟨Mode.auto, []⟩) (0 + j)
  · decide

/-- C3 witness: the encoding statement instantiated at a one-element Manual
request sequence. -/
theorem c3_buy_param_encoding_witness :
    ∃ slots,
      makeBuyParam [(⟨Mode.manual, [1, 2, 3, 4, 5, 6]⟩ : Lotto645Ticket)] =
        .ok slots ∧
      buyParamSpec [(⟨Mode.manual, [1, 2, 3, 4, 5, 6]⟩ : Lotto645Ticket)] slots :=
  c3_buy_param_encoding.1 [⟨Mode.manual, [1, 2, 3, 4, 5, 6]⟩] (by decide)

/-- C4: once the purchase POST's JSON is decoded, `BuyLotto645` succeeds —
returning the decoded tickets — iff resultCode is "100"; any other
resultCode fails with PurchaseRejected carrying resultMsg verbatim. -/
theorem c4_result_code_gate :
    ∀ (env : BuyEnv) (tickets : List Lotto645Ticket) (ip : String) (rnd : Int)
      (param : List BuySlot) (res : BuyResult),
      env.readySocket = .ok ip → env.currentRound = .ok rnd →
      makeBuyParam tickets = .ok param → env.buyResponse = .ok res →
      ((res.resultCode = "100" →
        (buyLotto645 env tickets).1 =
          .ok (parsePurchasedNumbers rnd res.arrGameChoiceNum)) ∧
       (res.resultCode ≠ "100" →
        (buyLotto645 env tickets).1 =
          .error (.purchaseRejected res.resultMsg)) ∧
       ((∃ ts, (buyLotto645 env tickets).1 = .ok ts) ↔
        res.resultCode = "100")) := by
  intro env tickets ip rnd param res hrs hcr hmk hbr
  by_cases hc : res.resultCode = "100"
  · have hok : (buyLotto645 env tickets).1 =
        .ok (parsePurchasedNumbers rnd res.arrGameChoiceNum) := by
      simp [buyLotto645, hrs, hcr, hmk, hbr, hc]
    exact ⟨fun _ => hok, fun hne => absurd hc hne,
      ⟨fun _ => hc,
       fun _ => ⟨parsePurchasedNumbers rnd res.arrGameChoiceNum, hok⟩⟩⟩
  · have herr : (buyLotto645 env tickets).1 =
        .error (.purchaseRejected res.resultMsg) := by
      simp [buyLotto645, hrs, hcr, hmk, hbr, hc]
    refine ⟨fun h100 => absurd h100 hc, fun _ => herr, ?_⟩
    constructor
    · rintro ⟨ts, hts⟩
      rw [herr] at hts
      simp at hts
    · intro h100
      exact absurd h100 hc

/-- C4 witness: the gate instantiated at an accepting response (code "100")
and at a rejecting response (code "999" with the site's message). -/
theorem c4_result_code_gate_witness :
    ((("100" : String) = "100" →
      (buyLotto645 envAllOk []).1 =
        .ok (parsePurchasedNumbers 42 ["A|01|02|04|27|39|443"])) ∧
     (("100" : String) ≠ "100" →
      (buyLotto645 envAllOk []).1 = .error (.purchaseRejected "")) ∧
     ((∃ ts, (buyLotto645 envAllOk []).1 = .ok ts) ↔
      ("100" : String) = "100")) ∧
    ((("999" : String) = "100" →
      (buyLotto645 envRejected []).1 = .ok (parsePurchasedNumbers 42 [])) ∧
     (("999" : String) ≠ "100" →
      (buyLotto645 envRejected []).1 =
        .error (.purchaseRejected "예치금이 부족합니다")) ∧
     ((∃ ts, (buyLotto645 envRejected []).1 = .ok ts) ↔
      ("999" : String) = "100")) :=
  ⟨c4_result_code_gate envAllOk [] "1.2.3.4" 42 []
      { resultCode := "100", resultMsg := "",
        arrGameChoiceNum := ["A|01|02|04|27|39|443"] } rfl rfl rfl rfl,
   c4_result_code_gate envRejected [] "1.2.3.4" 42 []
      { resultCode := "999", resultMsg := "예치금이 부족합니다",
        arrGameChoiceNum := [] } rfl rfl rfl rfl⟩

/-- A concrete history environment whose window holds no order summaries. -/
def envNoOrders : HistEnv :=
  { summaries := .ok [], detail := fun _ => .error (.detailFetch "") }

/-- A concrete history environment with one summary whose detail page decodes
to round 0. -/
def envRoundZero : HistEnv :=
  { summaries := .ok [⟨"ORD1", "B1", "I1"⟩], detail := fun _ => .ok (0, []) }

/-- A concrete healthy history environment: one summary, round 5, one ticket. -/
def envOneOrder : HistEnv :=
  { summaries := .ok [⟨"ORD1", "B1", "I1"⟩],
    detail := fun _ => .ok (5, [⟨"A", [1, 2, 3, 4, 5, 6], "자동"⟩]) }

/-- C5: a window whose purchase-list query decodes to zero order summaries
makes `GetRecentPurchases` fail with NoDataFound, never with an empty
success. -/
theorem c5_zero_summaries_no_data_found :
    ∀ env : HistEnv, env.summaries = .ok [] →
      getRecentPurchases env = .error .noDataFound := by
  intro env h
  simp [getRecentPurchases, h, processSummaries]

/-- C5 witness: the empty-window environment. -/
theorem c5_zero_summaries_no_data_found_witness :
    getRecentPurchases envNoOrders = .error .noDataFound :=
  c5_zero_summaries_no_data_found envNoOrders rfl

theorem processSummaries_round_zero_not_ok (env : HistEnv)
    (l : List PurchaseSummary) (s : PurchaseSummary) (ds : List TicketDetail)
    (hmem : s ∈ l) (hdet : env.detail s = .ok (0, ds)) :
    ∀ hs, processSummaries env l ≠ .ok hs := by
  induction l with
  | nil => simp at hmem
  | cons a rest ih =>
    intro hs hok
    rcases List.mem_cons.mp hmem with heq | hmem'
    · subst heq
      have hf : fetchPurchaseTickets env s =
          .ok (0, ds.map (fun d =>
            { round := 0, slot := d.slot, numbers := d.numbers,
              mode := d.mode })) := by
        simp [fetchPurchaseTickets, hdet]
      simp [processSummaries, hf] at hok
    · simp only [processSummaries] at hok
      split at hok
      · simp at hok
      · split at hok
        · simp at hok
        · split at hok
          · simp at hok
          · rename_i hs' hrest
            exact ih hmem' hs' hrest

/-- C6: an order summary whose detail page decodes to round 0 is fatal for
the whole `GetRecentPurchases` operation — it can never return success, and
when that summary is the first one, the error is the round-0 ParseError
carrying the summary's order number. -/
theorem c6_round_zero_fatal :
    (∀ (env : HistEnv) (l : List PurchaseSummary) (s : PurchaseSummary)
       (ds : List TicketDetail), env.summaries = .ok l → s ∈ l →
       env.detail s = .ok (0, ds) →
       ∀ hs, getRecentPurchases env ≠ .ok hs) ∧
    (∀ (env : HistEnv) (s : PurchaseSummary) (rest : List PurchaseSummary)
       (ds : List TicketDetail), env.summaries = .ok (s :: rest) →
       env.detail s = .ok (0, ds) →
       getRecentPurchases env = .error (.roundZeroParse s.orderNo)) := by
  constructor
  · intro env l s ds hsum hmem hdet hs hok
    simp only [getRecentPurchases, hsum] at hok
    cases hps : processSummaries env l with
    | error e =>
      rw [hps] at hok
      simp at hok
    | ok hs' => exact processSummaries_round_zero_not_ok env l s ds hmem hdet hs' hps
  · intro env s rest ds hsum hdet
    have hf : fetchPurchaseTickets env s =
        .ok (0, ds.map (fun d =>
          { round := 0, slot := d.slot, numbers := d.numbers,
            mode := d.mode })) := by
      simp [fetchPurchaseTickets, hdet]
    simp [getRecentPurchases, hsum, processSummaries, hf]

/-- C6 witness: a one-summary window whose detail decodes to round 0. -/
theorem c6_round_zero_fatal_witness :
    getRecentPurchases envRoundZero ≠ .ok [] ∧
    getRecentPurchases envRoundZero = .error (.roundZeroParse "ORD1") :=
  ⟨c6_round_zero_fatal.1 envRoundZero [⟨"ORD1", "B1", "I1"⟩]
      ⟨"ORD1", "B1", "I1"⟩ [] rfl (by simp) rfl [],
   c6_round_zero_fatal.2 envRoundZero ⟨"ORD1", "B1", "I1"⟩ [] [] rfl rfl⟩

theorem fetchPurchaseTickets_round (env : HistEnv) (s : PurchaseSummary)
    (rnd : Int) (tks : List PurchasedTicket)
    (h : fetchPurchaseTickets env s = .ok (rnd, tks)) :
    ∀ t ∈ tks, t.round = rnd := by
  intro t ht
  cases hd : env.detail s with
  | error e =>
    simp [fetchPurchaseTickets, hd] at h
  | ok p =>
    obtain ⟨r, ds⟩ := p
    simp only [fetchPurchaseTickets, hd, Except.ok.injEq, Prod.mk.injEq] at h
    obtain ⟨hr, htk⟩ := h
    subst hr
    rw [← htk] at ht
    obtain ⟨d, _, hdt⟩ := List.mem_map.mp ht
    rw [← hdt]

theorem processSummaries_rounds (env : HistEnv) (l : List PurchaseSummary)
    (hs : List PurchaseHistory) (hok : processSummaries env l = .ok hs) :
    ∀ h ∈ hs, ∀ t ∈ h.tickets, t.round = h.round := by
  induction l generalizing hs with
  | nil =>
    simp only [processSummaries, Except.ok.injEq] at hok
    subst hok
    simp
  | cons a rest ih =>
    intro h hmem t htm
    simp only [processSummaries] at hok
    split at hok
    · simp at hok
    · rename_i rnd tks hfa
      split at hok
      · simp at hok
      · split at hok
        · simp at hok
        · rename_i hs' hrest
          simp only [Except.ok.injEq] at hok
          subst hok
          rcases List.mem_cons.mp hmem with heq | hmem'
          · subst heq
            exact fetchPurchaseTickets_round env a rnd tks hfa t htm
          · exact ih hs' hrest h hmem' t htm

/-- C9: every ticket a single `BuyLotto645` call returns carries the round
fetched in its round-lookup step, and every ticket inside one
PurchaseHistory returned by `GetRecentPurchases` carries that history's
Round. -/
theorem c9_round_consistency :
    (∀ (env : BuyEnv) (tickets : List Lotto645Ticket)
       (purchased : List PurchasedTicket) (rnd : Int),
       (buyLotto645 env tickets).1 = .ok purchased →
       env.currentRound = .ok rnd →
       ∀ t ∈ purchased, t.round = rnd) ∧
    (∀ (env : HistEnv) (histories : List PurchaseHistory),
       getRecentPurchases env = .ok histories →
       ∀ h ∈ histories, ∀ t ∈ h.tickets, t.round = h.round) := by
  constructor
  · intro env tickets purchased rnd hok hcr t ht
    cases hrs : env.readySocket with
    | error e => simp [buyLotto645, hrs] at hok
    | ok ip =>
      cases hmk : makeBuyParam tickets with
      | error e => simp [buyLotto645, hrs, hcr, hmk] at hok
      | ok param =>
        cases hbr : env.buyResponse with
        | error e => simp [buyLotto645, hrs, hcr, hmk, hbr] at hok
        | ok res =>
          by_cases hc : res.resultCode = "100"
          · have hok2 : (buyLotto645 env tickets).1 =
                .ok (parsePurchasedNumbers rnd res.arrGameChoiceNum) := by
              simp [buyLotto645, hrs, hcr, hmk, hbr, hc]
            rw [hok2] at hok
            simp only [Except.ok.injEq] at hok
            rw [← hok] at ht
            exact parsePurchasedNumbers_round rnd res.arrGameChoiceNum t ht
          · simp [buyLotto645, hrs, hcr, hmk, hbr, hc] at hok
  · intro env histories hok
    cases hsum : env.summaries with
    | error e => simp [getRecentPurchases, hsum] at hok
    | ok l =>
      simp only [getRecentPurchases, hsum] at hok
      split at hok
      · simp at hok
      · rename_i hs' hps
        split at hok
        · simp at hok
        · simp only [Except.ok.injEq] at hok
          subst hok
          exact processSummaries_rounds env l hs' hps

/-- C9 witness: a successful purchase stamping round 42 and a history order
stamping round 5. -/
theorem c9_round_consistency_witness :
    ({ round := 42, slot := "A", numbers := [1, 2, 4, 27, 39, 44],
       mode := "자동" } : PurchasedTicket).round = 42 ∧
    ({ round := 5, slot := "A", numbers := [1, 2, 3, 4, 5, 6],
       mode := "자동" } : PurchasedTicket).round =
      ({ round := 5, orderNo := "ORD1",
         tickets := [{ round := 5, slot := "A", numbers := [1, 2, 3, 4, 5, 6],
                       mode := "자동" }] } : PurchaseHistory).round :=
  ⟨c9_round_consistency.1 envAllOk []
      [{ round := 42, slot := "A", numbers := [1, 2, 4, 27, 39, 44],
         mode := "자동" }] 42 (by decide) rfl
      { round := 42, slot := "A", numbers := [1, 2, 4, 27, 39, 44],
        mode := "자동" } (by simp),
   c9_round_consistency.2 envOneOrder
      [{ round := 5, orderNo := "ORD1",
         tickets := [{ round := 5, slot := "A", numbers := [1, 2, 3, 4, 5, 6],
                       mode := "자동" }] }] (by decide)
      { round := 5, orderNo := "ORD1",
        tickets := [{ round := 5, slot := "A", numbers := [1, 2, 3, 4, 5, 6],
                      mode := "자동" }] } (by simp)
      { round := 5, slot := "A", numbers := [1, 2, 3, 4, 5, 6],
        mode := "자동" } (by simp)⟩

theorem ticketPrize_spec (winning : WinningNumbers) (rank : Rank) :
    (∀ info, rank ≠ Rank.rankNone → winning.prizes rank = some info →
      ticketPrize winning rank = info.amountPerWinner) ∧
    ((rank = Rank.rankNone ∨ winning.prizes rank = none) →
      ticketPrize winning rank = 0) := by
  constructor
  · intro info hne hsome
    simp [ticketPrize, hne, hsome]
  · rintro (hr | hnone)
    · simp [ticketPrize, hr]
    · by_cases hr : rank = Rank.rankNone
      · simp [ticketPrize, hr]
      · simp [ticketPrize, hr, hnone]

theorem getD_irrel {α : Type} (l : List α) (j : Nat) (h : j < l.length)
    (d d' : α) : l.getD j d = l.getD j d' := by
  simp [List.getD_eq_getElem?_getD, List.getElem?_eq_getElem h]

/-- The ticket at position `j` of the reconciled purchase list. -/
def purchasedAt (tickets : List PurchasedTicket) (j : Nat) : PurchasedTicket :=
  tickets.getD j { round := 0, slot := "", numbers := [], mode := "" }

/-- The TicketResult at position `j` of the check-summary ticket list. -/
def summaryResultAt (winning : WinningNumbers) (tickets : List PurchasedTicket)
    (j : Nat) : TicketResult :=
  (buildSummaryTickets winning tickets).getD j
    { slot := "", mode := "", numbers := [], rank := Rank.rankNone, prize := 0 }

/-- C7: the check loop appends one TicketResult per purchased ticket in input
order; each result keeps the ticket's slot, mode and numbers, its rank is the
evaluated rank, and its prize equals the prize table's AmountPerWinner when
the rank is present and not RankNone, and 0 when the rank is RankNone or
absent from the table. -/
theorem c7_summary_prize_lookup :
    ∀ (winning : WinningNumbers) (tickets : List PurchasedTicket) (j : Nat),
      j < tickets.length →
      (buildSummaryTickets winning tickets).length = tickets.length ∧
      (summaryResultAt winning tickets j).slot = (purchasedAt tickets j).slot ∧
      (summaryResultAt winning tickets j).mode = (purchasedAt tickets j).mode ∧
      (summaryResultAt winning tickets j).numbers =
        (purchasedAt tickets j).numbers ∧
      (summaryResultAt winning tickets j).rank =
        checkWinning (purchasedAt tickets j).numbers winning ∧
      (∀ info, (summaryResultAt winning tickets j).rank ≠ Rank.rankNone →
        winning.prizes (summaryResultAt winning tickets j).rank = some info →
        (summaryResultAt winning tickets j).prize = info.amountPerWinner) ∧
      (((summaryResultAt winning tickets j).rank = Rank.rankNone ∨
        winning.prizes (summaryResultAt winning tickets j).rank = none) →
        (summaryResultAt winning tickets j).prize = 0) := by
  intro winning tickets j hj
  have hjm : j < (buildSummaryTickets winning tickets).length := by
    simpa [buildSummaryTickets] using hj
  have hr : summaryResultAt winning tickets j =
      (let rank := checkWinning (purchasedAt tickets j).numbers winning
       { slot := (purchasedAt tickets j).slot,
         mode := (purchasedAt tickets j).mode,
         numbers := (purchasedAt tickets j).numbers, rank := rank,
         prize := ticketPrize winning rank }) := by
    rw [summaryResultAt,
      getD_irrel _ j hjm _
        ((fun t : PurchasedTicket =>
          let rank := checkWinning t.numbers winning
          { slot := t.slot, mode := t.mode, numbers := t.numbers, rank := rank,
            prize := ticketPrize winning rank } : PurchasedTicket → TicketResult)
          { round := 0, slot := "", numbers := [], mode := "" }),
      buildSummaryTickets,
      getD_map _ tickets { round := 0, slot := "", numbers := [], mode := "" }
        j hj]
    rfl
  refine ⟨by simp [buildSummaryTickets], ?_, ?_, ?_, ?_, ?_, ?_⟩ <;>
    rw [hr]
  · exact (ticketPrize_spec winning
      (checkWinning (purchasedAt tickets j).numbers winning)).1
  · exact (ticketPrize_spec winning
      (checkWinning (purchasedAt tickets j).numbers winning)).2

/-- A concrete draw: round 1100, numbers 1–6, bonus 7, a prize row for Rank5
only. -/
def winningEx : WinningNumbers :=
  { round := 1100, numbers := [1, 2, 3, 4, 5, 6], bonusNumber := 7,
    prizes := fun r => if r = Rank.rank5 then
      some { winnerCount := 100, amountPerWinner := 5000,
             totalAmount := 500000 }
      else none }

/-- One purchased ticket matching exactly three of the draw's numbers. -/
def ticketsEx : List PurchasedTicket :=
  [{ round := 1100, slot := "A", numbers := [1, 2, 3, 10, 11, 12],
     mode := "자동" }]

/-- C7 witness: the summary characterization instantiated at the concrete
draw and single ticket. -/
theorem c7_summary_prize_lookup_witness :
    (buildSummaryTickets winningEx ticketsEx).length = ticketsEx.length ∧
    (summaryResultAt winningEx ticketsEx 0).slot =
      (purchasedAt ticketsEx 0).slot ∧
    (summaryResultAt winningEx ticketsEx 0).mode =
      (purchasedAt ticketsEx 0).mode ∧
    (summaryResultAt winningEx ticketsEx 0).numbers =
      (purchasedAt ticketsEx 0).numbers ∧
    (summaryResultAt winningEx ticketsEx 0).rank =
      checkWinning (purchasedAt ticketsEx 0).numbers winningEx ∧
    (∀ info, (summaryResultAt winningEx ticketsEx 0).rank ≠ Rank.rankNone →
      winningEx.prizes (summaryResultAt winningEx ticketsEx 0).rank =
        some info →
      (summaryResultAt winningEx ticketsEx 0).prize =
        info.amountPerWinner) ∧
    (((summaryResultAt winningEx ticketsEx 0).rank = Rank.rankNone ∨
      winningEx.prizes (summaryResultAt winningEx ticketsEx 0).rank = none) →
      (summaryResultAt winningEx ticketsEx 0).prize = 0) :=
  c7_summary_prize_lookup winningEx ticketsEx 0 (by decide)

end WeeklyLotto
